import Mathlib

/-!
Verification development for the 4G-proxy rotation orchestrator
(`orchestrator.py`).  The definitions below are a shallow embedding of the
relevant Python functions; external systems (subprocess results, the serial
modem, the HTTP client, the route table) appear as explicit environment
parameters so that the pure control flow of the source is captured exactly.
-/

/-- Python `str.startswith(p)`: prefix test, implemented on the character
    list so that it evaluates by structural recursion. -/
def strStarts (p s : String) : Bool :=
  p.toList.isPrefixOf s.toList

/-- Helper for `substrOf`: does `needle` occur contiguously in the list? -/
def substrAux (needle : List Char) : List Char → Bool
  | [] => needle.isEmpty
  | h :: t => needle.isPrefixOf (h :: t) || substrAux needle t

/-- Python `in` on strings (contiguous-substring test), used by the
    bearer-token checks `if expected not in token` and by the parsers that
    test `"inet " in stdout`. -/
def substrOf (needle hay : String) : Bool :=
  substrAux needle.toList hay.toList

/-- Python `str.strip()`: drop leading and trailing whitespace. -/
def strTrim (s : String) : String :=
  ⟨((s.toList.dropWhile Char.isWhitespace).reverse.dropWhile Char.isWhitespace).reverse⟩

/-- Python `len` on a string (character count). -/
def strLen (s : String) : Nat :=
  s.toList.length

/-- Python slicing `s[:n]`. -/
def strTake (s : String) (n : Nat) : String :=
  ⟨s.toList.take n⟩

/-- Helper for `splitWs`: tokenizer accumulating the current word
    (reversed). -/
def wsSplitAux : List Char → List Char → List String
  | [], acc => if acc.isEmpty then [] else [String.mk acc.reverse]
  | c :: cs, acc =>
    if c.isWhitespace then
      if acc.isEmpty then wsSplitAux cs []
      else String.mk acc.reverse :: wsSplitAux cs []
    else wsSplitAux cs (c :: acc)

/-- Python `str.split()` with no argument: split on whitespace runs, no
    empty pieces. -/
def splitWs (s : String) : List String :=
  wsSplitAux s.toList []

/-- Python `int(s)` restricted to the forms that appear in route lines:
    optional surrounding whitespace, optional sign, then decimal digits
    (`none` models the `ValueError` branch). -/
def strToInt? (s : String) : Option Int :=
  let l := (strTrim s).toList
  let core : List Char → Option Nat := fun ds =>
    if ds.isEmpty then none
    else ds.foldl (fun acc c =>
      match acc with
      | none => none
      | some n => if c.isDigit then some (n * 10 + (c.toNat - '0'.toNat)) else none)
      (some 0)
  match l with
  | '-' :: rest => (core rest).map fun n => -(n : Int)
  | '+' :: rest => (core rest).map fun n => (n : Int)
  | _ => (core l).map fun n => (n : Int)

/- ===== Interface probe (detect_qmi_interface / detect_rndis_interface) ===== -/

/-- Environment for the probe functions: result of
    `ip -br link show` (`none` = the subprocess raised, e.g. timeout;
    otherwise exit code and `splitlines()` of stdout), and for each interface
    name the result of `ip -4 addr show IFACE` (`none` = raised; otherwise
    exit code and stdout). -/
structure LinkEnv where
  linkShow : Option (Int × List String)
  addrShow : String → Option (Int × String)

/-- Name filter used by `detect_qmi_interface`:
    `line.startswith("wwan")`. -/
def qmiMatch (l : String) : Bool := strStarts "wwan" l

/-- Name filter used by `detect_rndis_interface`:
    `line.startswith("enx") or line.startswith("eth1")`. -/
def rndisMatch (l : String) : Bool := strStarts "enx" l || strStarts "eth1" l

/-- The `for line in result.stdout.splitlines()` loop shared (textually
    duplicated) by `detect_qmi_interface` and `detect_rndis_interface`.
    Returns `none` when the per-interface `ip -4 addr show` subprocess raises
    (the exception propagates to the enclosing `try`, whose handler returns
    `(None, False)`); otherwise `some` of the tuple the loop returns. -/
def scanIfaces (keep : String → Bool) (addrShow : String → Option (Int × String)) :
    List String → Option (Option String × Bool)
  | [] => some (none, false)
  | line :: rest =>
    let l := strTrim line
    if keep l then
      match splitWs l with
      | [] => scanIfaces keep addrShow rest
      | iface :: _ =>
        match addrShow iface with
        | none => none
        | some (rc, out) =>
          if rc ≠ 0 then some (some iface, false)
          else if substrOf "inet " out then some (some iface, true)
          else some (some iface, false)
    else scanIfaces keep addrShow rest

/-- Common body of the two probe functions: run `ip -br link show`; any
    exception or non-zero exit yields `(None, False)`; otherwise scan the
    lines with the mode-specific name filter. -/
def detectWith (keep : String → Bool) (env : LinkEnv) : Option String × Bool :=
  match env.linkShow with
  | none => (none, false)
  | some (rc, lines) =>
    if rc ≠ 0 then (none, false)
    else
      match scanIfaces keep env.addrShow lines with
      | none => (none, false)
      | some r => r

/-- `detect_qmi_interface` of orchestrator.py. -/
def detect_qmi_interface (env : LinkEnv) : Option String × Bool :=
  detectWith qmiMatch env

/-- `detect_rndis_interface` of orchestrator.py. -/
def detect_rndis_interface (env : LinkEnv) : Option String × Bool :=
  detectWith rndisMatch env

/- ===== get_current_ip ===== -/

/-- Outcome of the `requests.get` through the local proxy inside
    `get_current_ip`: body text, or one of the three caught exception
    classes. -/
inductive ProxyRes
  | ok (body : String)
  | timeout
  | connErr
  | err (msg : String)
  deriving DecidableEq, Repr

/-- The world as observed by one call to `get_current_ip`: the link/addr
    subprocess results (shared by its `detect_qmi_interface` and
    `detect_rndis_interface` calls), whether `ip -4 addr show ppp0` succeeded
    with an `inet ` line (`false` also covers the raised-exception case,
    which the source maps to the same result), and the proxy query result. -/
structure ProbeSt where
  linkEnv : LinkEnv
  pppInet : Bool
  proxy : ProxyRes

/-- The `âš ï¸ WiFi IP: ...` string returned by `get_current_ip`
    (the prefix characters are exactly the bytes present in the source
    file). -/
def warnWiFi (ip : String) : String :=
  "âš ï¸ WiFi IP: " ++ ip ++ " (cellular routing broken!)"

/-- The `âš ï¸ LAN IP: ...` string returned by `get_current_ip`. -/
def warnLan (ip : String) : String :=
  "âš ï¸ LAN IP: " ++ ip ++ " (cellular routing broken!)"

/-- `get_current_ip` of orchestrator.py.  `in_progress` is the module-level
    global of the same name: when set, the function short-circuits to the
    `"Rotating..."` sentinel before probing anything. -/
def get_current_ip (in_progress : Bool) (st : ProbeSt) : String :=
  if in_progress then "Rotating..."
  else
    let q := detect_qmi_interface st.linkEnv
    let cellularUp :=
      if q.1.isSome && q.2 then true
      else
        let r := detect_rndis_interface st.linkEnv
        if r.1.isSome && r.2 then true
        else st.pppInet
    if ¬ cellularUp then "No cellular connection"
    else
      match st.proxy with
      | .timeout => "Proxy timeout (check cellular connection)"
      | .connErr => "Proxy not responding (check Squid)"
      | .err m => "Error: " ++ strTake m 50
      | .ok body =>
        let ip := strTrim body
        if ip = "" ∨ strLen ip < 7 then "Unknown - proxy failed"
        else if strStarts "192.168." ip || strStarts "10." ip || strStarts "172." ip then
          if strStarts "86.151." ip then warnWiFi ip else warnLan ip
        else ip

/- ===== Bearer-token check ===== -/

/-- The authorization test performed by every token-protected endpoint:
    `expected = config['api']['token']`,
    `token = request.headers.get('Authorization', '')`,
    authorized unless `expected not in token`.  A missing header is the
    empty string. -/
def tokenAuthorized (expected header : String) : Bool :=
  substrOf expected header

/- ===== IP history (update_ip_history) ===== -/

/-- One element of `history["ips"]`.  The source entry also carries
    `timestamp`/`time`/`date` strings and, on failures, a fixed `note`;
    none of those influence any control flow, so the embedding keeps the
    `ip` and the `failed` flag. -/
structure IpEntry where
  ip : String
  failed : Bool
  deriving DecidableEq, Repr

/-- The persisted history document
    `{"ips": [...], "rotations": n, "first_seen": t}`.  Timestamps are
    abstracted to naturals. -/
structure IpHistory where
  ips : List IpEntry
  rotations : Nat
  first_seen : Option Nat
  deriving DecidableEq, Repr

/-- The default document returned by `load_ip_history` when no state file
    exists: `{"ips": [], "rotations": 0, "first_seen": None}`. -/
def initHistory : IpHistory := { ips := [], rotations := 0, first_seen := none }

/-- The append condition of `update_ip_history`:
    `force_add or not history["ips"] or history["ips"][-1]["ip"] != current_ip`. -/
def shouldAdd (h : IpHistory) (current_ip : String) (force_add : Bool) : Bool :=
  force_add || h.ips.isEmpty ||
    (match h.ips.getLast? with
     | none => true
     | some e => decide (e.ip ≠ current_ip))

/-- `history["ips"][-10:]`. -/
def keepLast (n : Nat) (l : List IpEntry) : List IpEntry :=
  l.drop (l.length - n)

/-- `update_ip_history` of orchestrator.py (the file load/save around it is
    abstracted into the explicit `h`/result). `now` stands for
    `datetime.now().isoformat()`. -/
def update_ip_history (h : IpHistory) (now : Nat) (current_ip : String)
    (force_add is_failure : Bool) : IpHistory :=
  if shouldAdd h current_ip force_add then
    let entry : IpEntry := { ip := current_ip, failed := is_failure }
    let ips1 := h.ips ++ [entry]
    let fs := if h.first_seen.isNone then some now else h.first_seen
    let rot :=
      if h.first_seen.isNone then h.rotations
      else if ips1.length > 1 || force_add then h.rotations + 1
      else h.rotations
    let ips2 := if ips1.length > 10 then keepLast 10 ips1 else ips1
    { ips := ips2, rotations := rot, first_seen := fs }
  else h

/-- A sequence of `update_ip_history` calls starting from the initial
    (empty) document; each element is `(now, ip, force_add, is_failure)`. -/
def runHist (ops : List (Nat × String × Bool × Bool)) : IpHistory :=
  ops.foldl (fun h op => update_ip_history h op.1 op.2.1 op.2.2.1 op.2.2.2) initHistory

/- ===== Routing guard (ensure_ppp_default_route) ===== -/

/-- Accumulator for the token scan in `ensure_ppp_default_route`:
    `gw = dev = None; metric = 100` then a lookahead walk over
    `line.split()`. -/
structure RouteParse where
  gw : Option String
  dev : Option String
  metric : Int
  deriving DecidableEq, Repr

/-- The `for i, p in enumerate(parts)` loop of `ensure_ppp_default_route`:
    each position checks `via`/`dev`/`metric` followed by `parts[i+1]`
    (guarded by `i+1 < len(parts)`); a non-integer metric keeps the previous
    value (`except: pass`). -/
def scanRoute : RouteParse → List String → RouteParse
  | acc, [] => acc
  | acc, [_] => acc
  | acc, p :: q :: rest =>
    let acc := if p = "via" then { acc with gw := some q } else acc
    let acc := if p = "dev" then { acc with dev := some q } else acc
    let acc :=
      if p = "metric" then
        match strToInt? q with
        | some m => { acc with metric := m }
        | none => acc
      else acc
    scanRoute acc (q :: rest)

/-- Parse of the first `ip route show default` line. -/
def parse_default_route (line : String) : RouteParse :=
  scanRoute { gw := none, dev := none, metric := 100 } (splitWs line)

/-- The `ip route` mutations the guard can issue on the main table. -/
inductive RouteCmd
  | replaceDefault (gw : String) (dev : String) (metric : Int)
  | addDefault (dev : String) (metric : Int)
  deriving DecidableEq, Repr

/-- `ensure_ppp_default_route` of orchestrator.py, as the list of route
    commands it issues.  Input: `none` when `ip route show default` raised
    (handler prints a warning, no commands); otherwise `splitlines()` of its
    stdout (`line = splitlines[0] if stdout else ""`).  When the parsed
    primary route has a device other than `ppp0` but no `via` gateway, the
    attempt to build the first command raises (`None` in the argument list),
    the enclosing `except` swallows it and no command is issued. -/
def ensure_ppp_default_route (showOutput : Option (List String)) : List RouteCmd :=
  match showOutput with
  | none => []
  | some lines =>
    let line := match lines with | [] => "" | l :: _ => l
    let rp := parse_default_route line
    let devTruthy := match rp.dev with | some d => d ≠ "" && d ≠ "ppp0" | none => false
    if devTruthy then
      match rp.dev, rp.gw with
      | some d, some g =>
          [RouteCmd.replaceDefault g d rp.metric,
           RouteCmd.addDefault "ppp0" (rp.metric + 500)]
      | _, _ => []
    else
      [RouteCmd.addDefault "ppp0" 600]

/-- One entry of the kernel main routing table restricted to default routes
    (modelled environment: destination is always `default`). -/
structure DefRoute where
  gw : Option String
  dev : String
  metric : Int
  deriving DecidableEq, Repr

/-- Modelled iproute2 semantics for the two commands the guard issues:
    `ip route replace default ... metric m` rewrites the default route whose
    metric is `m` (or appends if absent); `ip route add default ... metric m`
    appends unless a default route with metric `m` already exists, in which
    case it fails — and the guard runs it with `check=False`, so the failure
    is swallowed and the table is unchanged. -/
def applyCmd (t : List DefRoute) : RouteCmd → List DefRoute
  | .replaceDefault g d m =>
    if t.any fun r => r.metric = m then
      t.map fun r => if r.metric = m then { gw := some g, dev := d, metric := m } else r
    else t ++ [{ gw := some g, dev := d, metric := m }]
  | .addDefault d m =>
    if t.any fun r => r.metric = m then t
    else t ++ [{ gw := none, dev := d, metric := m }]

/-- Apply a command list to the route table in order. -/
def applyCmds (t : List DefRoute) (cs : List RouteCmd) : List DefRoute :=
  cs.foldl applyCmd t

/- ===== Rotation orchestrator (/rotate handler, auto_rotation_worker) ===== -/

/-- The configuration values the rotation logic reads:
    `config['api']['token']`, `config['modem']['mode']` (default "auto"),
    and the `rotation.*` block (`max_attempts` default 2, `randomise_imei`
    default False, `deep_reset_enabled`/`deep_reset_method` for the PPP
    path).  Wait durations only feed `time.sleep` and do not affect control
    flow, so they are not carried. -/
structure Config where
  token : String
  modemMode : String
  maxAttempts : Nat
  randomiseImei : Bool
  deepEnabled : Bool
  deepMethod : String

/-- Per-attempt external behaviour: whether the driver bring-up
    (`start_qmi`/`start_rndis`/`start_ppp`) raises, whether the
    `wait_for_*_up` poll succeeds within its timeout, the world state
    observed by the post-bring-up `get_current_ip` call, and the serial
    response to `at('AT+CGPADDR')` (PPP path only). -/
structure AttemptEnv where
  startExc : Bool
  waitUp : Bool
  probeAfter : ProbeSt
  pdpResp : String

/-- Environment of one rotation: world state at the initial probes, the
    per-attempt behaviours, the `ip route show default` output seen by the
    routing guard (PPP path), and the world state probed by the
    `except`-handler if the body raises. -/
structure RotateEnv where
  st0 : ProbeSt
  att : Nat → AttemptEnv
  routeShow : Option (List String)
  stExc : ProbeSt

/-- Observable side effects of a rotation, in program order.  Driver
    teardown/bring-up are kept opaque (their internals issue no history or
    route-table mutations); `hist` is a call to `update_ip_history`;
    `notify` is a call to `send_discord_notification` with the arguments
    of the source call. -/
inductive Eff
  | teardownQmi
  | startQmi
  | teardownRndis
  | startRndis
  | teardownPpp
  | startPpp
  | deepReset (method : String)
  | routeGuard (cmds : List RouteCmd)
  | policyRouting
  | atQuery (cmd : String)
  | hist (ip : String) (forceAdd isFailure : Bool)
  | notify (ip : String) (prev : Option String) (isRotation isFailure : Bool)
      (err : Option String)
  deriving DecidableEq, Repr

/-- The structured results the `/rotate` handler can produce: the 429 busy
    reject, the 200 success payloads (the PPP one carries the extra `pdp`
    field), the 500 and 400 failure payloads, the 500 produced by the
    `except Exception` handler, and the fall-through `None` return (possible
    only when `max_attempts` is 0). -/
inductive Resp
  | busy
  | success (publicIp prevIp : String) (attempts : Nat)
  | successPpp (pdp publicIp prevIp : String) (attempts : Nat)
  | failed500 (error publicIp prevIp : String)
  | failed400 (error publicIp prevIp : String) (attempts : Nat)
  | failed400Ppp (error pdp publicIp prevIp : String) (attempts : Nat)
  | excFailed (error : String)
  | noneResp
  deriving DecidableEq, Repr

/-- The QMI attempt loop of the `/rotate` handler
    (`for attempt in range(max_attempts)` in the `use_qmi and qmi_iface`
    branch).  `cur`/`prev` are the handler's `current_ip`/`previous_ip`;
    the loop is evaluated on `List.range cfg.maxAttempts`, so the index list
    argument mirrors the remaining iterations. -/
def qmiLoopM (cfg : Config) (env : RotateEnv) (cur prev : String) :
    List Nat → Resp × List Eff
  | [] => (.noneResp, [])
  | i :: rest =>
    let a := env.att i
    let es0 := [Eff.teardownQmi]
    if a.startExc then
      if i = cfg.maxAttempts - 1 then
        let err := "QMI restart failed after " ++ toString cfg.maxAttempts ++ " attempts"
        (.failed500 err cur prev, es0 ++ [.notify cur (some prev) false true (some err)])
      else
        let r := qmiLoopM cfg env cur prev rest
        (r.1, es0 ++ r.2)
    else
      let es1 := es0 ++ [Eff.startQmi]
      if ¬ a.waitUp then
        if i = cfg.maxAttempts - 1 then
          let err := "QMI interface failed to get IP after " ++ toString cfg.maxAttempts ++ " attempts"
          (.failed500 err cur prev, es1 ++ [.notify cur (some prev) false true (some err)])
        else
          let r := qmiLoopM cfg env cur prev rest
          (r.1, es1 ++ r.2)
      else
        let newIp := get_current_ip true a.probeAfter
        let es2 := es1 ++ (if newIp ≠ "Unknown" then [Eff.hist newIp false false] else [])
        if newIp ≠ prev ∧ newIp ≠ "Unknown" then
          (.success newIp prev (i + 1), es2 ++ [.notify newIp (some prev) true false none])
        else if i < cfg.maxAttempts - 1 then
          let r := qmiLoopM cfg env cur prev rest
          (r.1, es2 ++ r.2)
        else
          let err := "IP did not change after " ++ toString cfg.maxAttempts ++ " attempts"
          (.failed400 err newIp prev cfg.maxAttempts,
           es2 ++ [.hist newIp true true, .notify cur (some prev) false true (some err)])

/-- The RNDIS attempt loop of the `/rotate` handler (same structure as the
    QMI loop with the RNDIS driver and error strings). -/
def rndisLoopM (cfg : Config) (env : RotateEnv) (cur prev : String) :
    List Nat → Resp × List Eff
  | [] => (.noneResp, [])
  | i :: rest =>
    let a := env.att i
    let es0 := [Eff.teardownRndis]
    if a.startExc then
      if i = cfg.maxAttempts - 1 then
        let err := "RNDIS restart failed after " ++ toString cfg.maxAttempts ++ " attempts"
        (.failed500 err cur prev, es0 ++ [.notify cur (some prev) false true (some err)])
      else
        let r := rndisLoopM cfg env cur prev rest
        (r.1, es0 ++ r.2)
    else
      let es1 := es0 ++ [Eff.startRndis]
      if ¬ a.waitUp then
        if i = cfg.maxAttempts - 1 then
          let err := "RNDIS interface failed to get IP after " ++ toString cfg.maxAttempts ++ " attempts"
          (.failed500 err cur prev, es1 ++ [.notify cur (some prev) false true (some err)])
        else
          let r := rndisLoopM cfg env cur prev rest
          (r.1, es1 ++ r.2)
      else
        let newIp := get_current_ip true a.probeAfter
        let es2 := es1 ++ (if newIp ≠ "Unknown" then [Eff.hist newIp false false] else [])
        if newIp ≠ prev ∧ newIp ≠ "Unknown" then
          (.success newIp prev (i + 1), es2 ++ [.notify newIp (some prev) true false none])
        else if i < cfg.maxAttempts - 1 then
          let r := rndisLoopM cfg env cur prev rest
          (r.1, es2 ++ r.2)
        else
          let err := "IP did not change after " ++ toString cfg.maxAttempts ++ " attempts"
          (.failed400 err newIp prev cfg.maxAttempts,
           es2 ++ [.hist newIp true true, .notify cur (some prev) false true (some err)])

/-- The PPP fallback attempt loop of the `/rotate` handler: teardown, the
    attempt-≥-2 deep-reset escalation (when `deep_reset_enabled`), bring-up,
    wait, the routing guard plus the policy-routing re-application, the
    `AT+CGPADDR` query (only when the observed IP is not the `"Unknown"`
    literal), then the same verify/decide logic.  This path records no
    history entries. -/
def pppLoopM (cfg : Config) (env : RotateEnv) (cur prev : String) :
    List Nat → Resp × List Eff
  | [] => (.noneResp, [])
  | i :: rest =>
    let a := env.att i
    let es0 := [Eff.teardownPpp] ++
      (if i = 0 then []
       else if cfg.deepEnabled then [Eff.deepReset cfg.deepMethod] else [])
    if a.startExc then
      if i = cfg.maxAttempts - 1 then
        let err := "PPP restart failed after " ++ toString cfg.maxAttempts ++ " attempts"
        (.failed500 err cur prev, es0 ++ [.notify cur (some prev) false true (some err)])
      else
        let r := pppLoopM cfg env cur prev rest
        (r.1, es0 ++ r.2)
    else
      let es1 := es0 ++ [Eff.startPpp]
      if ¬ a.waitUp then
        if i = cfg.maxAttempts - 1 then
          let err := "ppp0 interface not up after restart"
          (.failed500 err cur prev, es1 ++ [.notify cur (some prev) false true (some err)])
        else
          let r := pppLoopM cfg env cur prev rest
          (r.1, es1 ++ r.2)
      else
        let es2 := es1 ++ [Eff.routeGuard (ensure_ppp_default_route env.routeShow),
                           Eff.policyRouting]
        let newIp := get_current_ip true a.probeAfter
        let pdp := if newIp ≠ "Unknown" then a.pdpResp else ""
        let es3 := es2 ++ (if newIp ≠ "Unknown" then [Eff.atQuery "AT+CGPADDR"] else [])
        if newIp ≠ prev ∧ newIp ≠ "Unknown" then
          (.successPpp pdp newIp prev (i + 1),
           es3 ++ [.notify newIp (some prev) true false none])
        else if i < cfg.maxAttempts - 1 then
          let r := pppLoopM cfg env cur prev rest
          (r.1, es3 ++ r.2)
        else
          let err := "IP did not change after " ++ toString cfg.maxAttempts ++ " attempts"
          (.failed400Ppp err pdp newIp prev cfg.maxAttempts,
           es3 ++ [.notify cur (some prev) false true (some err)])

/-- The mode-selection block shared verbatim by the `/rotate` handler and
    `auto_rotation_worker` (`use_qmi`/`use_rndis` from the configured mode
    and the probed interfaces; unknown modes leave both flags `False`). -/
def selectMode (modemMode : String) (qmiIface rndisIface : Option String) :
    Bool × Bool :=
  if modemMode = "qmi" then (true, false)
  else if modemMode = "rndis" then (false, true)
  else if modemMode = "ppp" then (false, false)
  else if modemMode = "auto" then
    if qmiIface.isSome then (true, false)
    else if rndisIface.isSome then (false, true)
    else (false, false)
  else (false, false)

/-- Abbreviated text of the `werkzeug` exception raised by `abort(403)`;
    only its presence in the generic failure message matters, not its exact
    wording. -/
def forbidden403Text : String := "403 Forbidden"

/-- Body of the `/rotate` handler: the `try:` block plus the
    `except Exception` handler.  `abort(403)` raises an `Exception`
    subclass, so a failed token check lands in the generic handler, which
    re-probes the IP (still under `in_progress = True`, hence the sentinel),
    sends a failure notification and returns the 500 payload.  Every
    `get_current_ip` call in the body runs with `in_progress = True` because
    the handler sets the flag before the `try`. -/
def rotateBody (cfg : Config) (header : String) (env : RotateEnv) :
    Resp × List Eff :=
  if ¬ tokenAuthorized cfg.token header then
    let errText := "Rotation failed: " ++ forbidden403Text
    let curExc := get_current_ip true env.stExc
    (.excFailed errText, [.notify curExc none false true (some errText)])
  else
    let cur := get_current_ip true env.st0
    let prev := cur
    let qi := (detect_qmi_interface env.st0.linkEnv).1
    let ri := (detect_rndis_interface env.st0.linkEnv).1
    let uses := selectMode cfg.modemMode qi ri
    if uses.1 ∧ qi.isSome then
      qmiLoopM cfg env cur prev (List.range cfg.maxAttempts)
    else if uses.2 ∧ ri.isSome then
      rndisLoopM cfg env cur prev (List.range cfg.maxAttempts)
    else
      pppLoopM cfg env cur prev (List.range cfg.maxAttempts)

/-- Result of one `/rotate` request: HTTP-level response, side-effect trace,
    whether the lock was acquired, how many times it was released, and the
    final lock / `in_progress` state. -/
structure RotateResult where
  resp : Resp
  effs : List Eff
  acquired : Bool
  releases : Nat
  lockFreeAfter : Bool
  inProgressAfter : Bool
  deriving Repr

/-- The `/rotate` handler.  `rotate_lock.acquire(blocking=False)` failing
    returns the 429 busy payload with no side effects; otherwise
    `in_progress = True` is set, the body runs (exceptions already folded
    into `rotateBody`), and the `finally:` block clears `in_progress` and
    releases the lock exactly once on every path. -/
def rotate (cfg : Config) (header : String) (lockFree inProg0 : Bool)
    (env : RotateEnv) : RotateResult :=
  if ¬ lockFree then
    { resp := .busy, effs := [], acquired := false, releases := 0,
      lockFreeAfter := false, inProgressAfter := inProg0 }
  else
    let r := rotateBody cfg header env
    { resp := r.1, effs := r.2, acquired := true, releases := 1,
      lockFreeAfter := true, inProgressAfter := false }

/- ===== auto_rotation_worker (scheduled path) ===== -/

/-- The QMI attempt loop inside `auto_rotation_worker`.  Identical rotation
    sequence to the manual loop, but a thread has no response: last-attempt
    failures notify and `continue`, success notifies and `break`s.  Like the
    whole worker, it never touches `rotate_lock` or `in_progress`;
    `inProg` is whatever the global happens to be (set only by a
    concurrently running manual `/rotate`). -/
def qmiLoopA (cfg : Config) (env : RotateEnv) (cur prev : String)
    (inProg : Bool) : List Nat → List Eff
  | [] => []
  | i :: rest =>
    let a := env.att i
    let es0 := [Eff.teardownQmi]
    if a.startExc then
      if i = cfg.maxAttempts - 1 then
        let err := "QMI restart failed after " ++ toString cfg.maxAttempts ++ " attempts"
        es0 ++ [.notify cur (some prev) false true (some err)] ++
          qmiLoopA cfg env cur prev inProg rest
      else es0 ++ qmiLoopA cfg env cur prev inProg rest
    else
      let es1 := es0 ++ [Eff.startQmi]
      if ¬ a.waitUp then
        if i = cfg.maxAttempts - 1 then
          let err := "QMI interface failed to get IP after " ++ toString cfg.maxAttempts ++ " attempts"
          es1 ++ [.notify cur (some prev) false true (some err)] ++
            qmiLoopA cfg env cur prev inProg rest
        else es1 ++ qmiLoopA cfg env cur prev inProg rest
      else
        let newIp := get_current_ip inProg a.probeAfter
        let es2 := es1 ++ (if newIp ≠ "Unknown" then [Eff.hist newIp false false] else [])
        if newIp ≠ prev ∧ newIp ≠ "Unknown" then
          es2 ++ [.notify newIp (some prev) true false none]
        else if i < cfg.maxAttempts - 1 then
          es2 ++ qmiLoopA cfg env cur prev inProg rest
        else
          let err := "IP did not change after " ++ toString cfg.maxAttempts ++ " attempts"
          es2 ++ [.hist newIp true true, .notify cur (some prev) false true (some err)]

/-- The RNDIS attempt loop inside `auto_rotation_worker`. -/
def rndisLoopA (cfg : Config) (env : RotateEnv) (cur prev : String)
    (inProg : Bool) : List Nat → List Eff
  | [] => []
  | i :: rest =>
    let a := env.att i
    let es0 := [Eff.teardownRndis]
    if a.startExc then
      if i = cfg.maxAttempts - 1 then
        let err := "RNDIS restart failed after " ++ toString cfg.maxAttempts ++ " attempts"
        es0 ++ [.notify cur (some prev) false true (some err)] ++
          rndisLoopA cfg env cur prev inProg rest
      else es0 ++ rndisLoopA cfg env cur prev inProg rest
    else
      let es1 := es0 ++ [Eff.startRndis]
      if ¬ a.waitUp then
        if i = cfg.maxAttempts - 1 then
          let err := "RNDIS interface failed to get IP after " ++ toString cfg.maxAttempts ++ " attempts"
          es1 ++ [.notify cur (some prev) false true (some err)] ++
            rndisLoopA cfg env cur prev inProg rest
        else es1 ++ rndisLoopA cfg env cur prev inProg rest
      else
        let newIp := get_current_ip inProg a.probeAfter
        let es2 := es1 ++ (if newIp ≠ "Unknown" then [Eff.hist newIp false false] else [])
        if newIp ≠ prev ∧ newIp ≠ "Unknown" then
          es2 ++ [.notify newIp (some prev) true false none]
        else if i < cfg.maxAttempts - 1 then
          es2 ++ rndisLoopA cfg env cur prev inProg rest
        else
          let err := "IP did not change after " ++ toString cfg.maxAttempts ++ " attempts"
          es2 ++ [.hist newIp true true, .notify cur (some prev) false true (some err)]

/-- The PPP fallback attempt loop inside `auto_rotation_worker` (here
    last-attempt bring-up/wait failures notify and `break`; there is no
    deep-reset escalation, no routing guard and no `AT+CGPADDR` query in
    this path). -/
def pppLoopA (cfg : Config) (env : RotateEnv) (cur prev : String)
    (inProg : Bool) : List Nat → List Eff
  | [] => []
  | i :: rest =>
    let a := env.att i
    let es0 := [Eff.teardownPpp]
    if a.startExc then
      if i = cfg.maxAttempts - 1 then
        let err := "PPP restart failed after " ++ toString cfg.maxAttempts ++ " attempts"
        es0 ++ [.notify cur (some prev) false true (some err)]
      else es0 ++ pppLoopA cfg env cur prev inProg rest
    else
      let es1 := es0 ++ [Eff.startPpp]
      if ¬ a.waitUp then
        if i = cfg.maxAttempts - 1 then
          let err := "PPP interface failed to get IP after " ++ toString cfg.maxAttempts ++ " attempts"
          es1 ++ [.notify cur (some prev) false true (some err)]
        else es1 ++ pppLoopA cfg env cur prev inProg rest
      else
        let newIp := get_current_ip inProg a.probeAfter
        let es2 := es1 ++ (if newIp ≠ "Unknown" then [Eff.hist newIp false false] else [])
        if newIp ≠ prev ∧ newIp ≠ "Unknown" then
          es2 ++ [.notify newIp (some prev) true false none]
        else if i < cfg.maxAttempts - 1 then
          es2 ++ pppLoopA cfg env cur prev inProg rest
        else
          let err := "IP did not change after " ++ toString cfg.maxAttempts ++ " attempts"
          es2 ++ [.hist newIp true true, .notify cur (some prev) false true (some err)]

/-- One scheduled rotation performed by `auto_rotation_worker` (the body of
    the inner `try:` once the interval has elapsed with the stop event unset
    and auto-rotation enabled).  The worker reads `previous_ip` via
    `get_current_ip` and runs the same mode selection and attempt loops as
    the manual handler, but it performs no interaction whatsoever with
    `rotate_lock` or `in_progress`: the returned lock/flag states are the
    inputs, untouched, and the effect trace does not depend on them. -/
def autoCycle (cfg : Config) (env : RotateEnv) (lockFree inProg : Bool) :
    List Eff × Bool × Bool :=
  let cur := get_current_ip inProg env.st0
  let prev := cur
  let qi := (detect_qmi_interface env.st0.linkEnv).1
  let ri := (detect_rndis_interface env.st0.linkEnv).1
  let uses := selectMode cfg.modemMode qi ri
  let effs :=
    if uses.1 ∧ qi.isSome then
      qmiLoopA cfg env cur prev inProg (List.range cfg.maxAttempts)
    else if uses.2 ∧ ri.isSome then
      rndisLoopA cfg env cur prev inProg (List.range cfg.maxAttempts)
    else
      pppLoopA cfg env cur prev inProg (List.range cfg.maxAttempts)
  (effs, lockFree, inProg)

/- ===== Concrete example environments ===== -/

/-- A link environment in which exactly one cellular interface, `wwan0`,
    exists and has an IPv4 address. -/
def linkUpQmi : LinkEnv :=
  { linkShow := some (0, ["wwan0            UP             aa:bb:cc:dd:ee:01"]),
    addrShow := fun i =>
      if i = "wwan0" then some (0, "5: wwan0    inet 10.64.12.3/30 scope global wwan0")
      else none }

/-- World state: QMI up, proxy reports the public IP `1.2.3.4`. -/
def stPub : ProbeSt := { linkEnv := linkUpQmi, pppInet := false, proxy := .ok "1.2.3.4" }

/-- World state: QMI up, proxy reports the RFC1918 address `192.168.1.50`
    (cellular routing broken, traffic leaving via the LAN). -/
def stPriv : ProbeSt := { linkEnv := linkUpQmi, pppInet := false, proxy := .ok "192.168.1.50" }

/-- World state: QMI up, the public-IP query times out. -/
def stTimeout : ProbeSt := { linkEnv := linkUpQmi, pppInet := false, proxy := .timeout }

/-- An attempt in which bring-up and the readiness wait both succeed and the
    world afterwards looks like `st`. -/
def attOk (st : ProbeSt) : AttemptEnv :=
  { startExc := false, waitUp := true, probeAfter := st, pdpResp := "" }

/-- A QMI-mode configuration with one attempt and token `secret`. -/
def cfgEx : Config :=
  { token := "secret", modemMode := "qmi", maxAttempts := 1,
    randomiseImei := false, deepEnabled := false, deepMethod := "mmcli" }

/-- Rotation environment: healthy bring-up, but the post-rotation probe sees
    the private address `192.168.1.50`. -/
def envPriv : RotateEnv :=
  { st0 := stPub, att := fun _ => attOk stPriv, routeShow := none, stExc := stPub }

/-- Rotation environment: healthy bring-up, but the post-rotation public-IP
    query times out. -/
def envTimeout : RotateEnv :=
  { st0 := stPub, att := fun _ => attOk stTimeout, routeShow := none, stExc := stPub }

/-- Rotation environment: healthy bring-up, world unchanged (`1.2.3.4`
    before and after). -/
def envSame : RotateEnv :=
  { st0 := stPub, att := fun _ => attOk stPub, routeShow := none, stExc := stPub }

/- ===== Helper predicates on responses ===== -/

/-- A response that reports the rotation as successful (HTTP 200 with
    `status: success`). -/
def isSuccessResp : Resp → Bool
  | .success _ _ _ => true
  | .successPpp _ _ _ _ => true
  | _ => false

/-- A response that reports failure after exhausting `n` attempts (HTTP 400
    with `attempts: n`). -/
def isExhaustedFailure : Resp → Nat → Bool
  | .failed400 _ _ _ k, n => decide (k = n)
  | .failed400Ppp _ _ _ _ k, n => decide (k = n)
  | _, _ => false

/-- `substrAux` decides the contiguous-substring relation. -/
theorem substrAux_infix (n : List Char) : ∀ l : List Char, substrAux n l = true ↔ n <:+: l := by
  intro l
  induction l with
  | nil =>
    simp [substrAux, List.isEmpty_iff, List.infix_nil]
  | cons h t ih =>
    simp [substrAux, List.infix_cons_iff, List.isPrefixOf_iff_prefix, ih]

/- ===== Claim theorems ===== -/

/-- C1: the claim is that at most one rotation sequence can be in progress
    at a time and that the scheduled path passes through the same exclusive
    critical section as the manual path.  The code violates this:
    `auto_rotation_worker` never touches `rotate_lock`.  Concretely, with
    the lock held by an in-flight manual rotation (`lockFree = false`,
    `in_progress = true`), a manual request is indeed rejected as busy with
    no side effects, but the scheduled cycle still performs driver teardown
    calls, leaves the lock untouched, and its effect trace does not depend
    on the lock state at all. -/
theorem claim_C1_lock_bypass :
    (rotate cfgEx "Bearer secret" false true envPriv).resp = Resp.busy ∧
    (rotate cfgEx "Bearer secret" false true envPriv).effs = [] ∧
    Eff.teardownQmi ∈ (autoCycle cfgEx envPriv false true).1 ∧
    (autoCycle cfgEx envPriv false true).2.1 = false ∧
    (autoCycle cfgEx envPriv false true).1 = (autoCycle cfgEx envPriv true true).1 := by
  refine ⟨rfl, rfl, ?_, rfl, rfl⟩
  decide

/-- C2: the claim is that `previous_ip` recorded at the start of a manual
    rotation is a genuine public-IP observation.  The code sets
    `in_progress = True` before reading the baseline, and `get_current_ip`
    short-circuits on that flag, so the recorded baseline is always the
    `"Rotating..."` placeholder — here even though the world would have
    answered `1.2.3.4` — and the failure record written to history carries
    the sentinel as its IP. -/
theorem claim_C2_sentinel_baseline :
    get_current_ip false envSame.st0 = "1.2.3.4" ∧
    (rotate cfgEx "Bearer secret" true false envSame).resp =
      Resp.failed400 "IP did not change after 1 attempts" "Rotating..." "Rotating..." 1 ∧
    Eff.hist "Rotating..." true true ∈ (rotate cfgEx "Bearer secret" true false envSame).effs := by
  refine ⟨by decide, by decide, by decide⟩

/-- C3: for every execution of the `/rotate` handler that acquires the lock
    (non-blocking acquire succeeded), and for every environment — success,
    exhausted failure, driver exception, probe timeout, or the exception
    path — the `finally:` block releases the lock exactly once and leaves it
    acquirable. -/
theorem claim_C3_lock_released (cfg : Config) (header : String) (inProg0 : Bool)
    (env : RotateEnv) :
    (rotate cfg header true inProg0 env).acquired = true ∧
    (rotate cfg header true inProg0 env).releases = 1 ∧
    (rotate cfg header true inProg0 env).lockFreeAfter = true := by
  refine ⟨rfl, rfl, rfl⟩

/-- C6: the claim is that a private (RFC1918) or unknown observation never
    causes a rotation to be reported as success.  On the scheduled path the
    success test is only `new_ip != previous_ip and new_ip != "Unknown"`,
    and `get_current_ip` renders a private observation as a warning string
    and a failed query as an error string, neither of which is the literal
    `"Unknown"`; both therefore count as a changed IP and the worker emits
    the success notification (`is_rotation=True`). -/
theorem claim_C6_private_unknown_success :
    get_current_ip false stPriv = warnLan "192.168.1.50" ∧
    Eff.notify (warnLan "192.168.1.50") (some "1.2.3.4") true false none ∈
      (autoCycle cfgEx envPriv true false).1 ∧
    get_current_ip false stTimeout = "Proxy timeout (check cellular connection)" ∧
    Eff.notify "Proxy timeout (check cellular connection)" (some "1.2.3.4") true false none ∈
      (autoCycle cfgEx envTimeout true false).1 := by
  refine ⟨by decide, by decide, by decide, by decide⟩

/-- C10: a request to a token-protected endpoint is authorized exactly when
    the configured token occurs as a contiguous substring of the
    `Authorization` header value, and with an empty-string token every
    request passes — including one with no header at all (the source
    defaults a missing header to `""`, which is the `header` instance
    `""` here). -/
theorem claim_C10_substring_auth (expected header : String) :
    (tokenAuthorized expected header = true ↔ expected.toList <:+: header.toList) ∧
    tokenAuthorized "" header = true := by
  refine ⟨?_, ?_⟩
  · simpa [tokenAuthorized, substrOf] using substrAux_infix expected.toList header.toList
  · have h := substrAux_infix ([] : List Char) header.toList
    simp only [tokenAuthorized, substrOf, String.toList]
    exact h.mpr ⟨[], header.data, by simp⟩

/-- C4 counterexample: a request with a missing bearer token (empty
    `Authorization` header against token `secret`) is not authorized, yet
    the handler acquires the rotation lock before checking the token, and
    the swallowed `abort(403)` triggers a failure notification side effect —
    refuting the claim that such a request is rejected without the lock ever
    being acquired and without side effects. -/
theorem claim_C4_counterexample :
    tokenAuthorized cfgEx.token "" = false ∧
    (rotate cfgEx "" true false envPriv).acquired = true ∧
    (rotate cfgEx "" true false envPriv).effs =
      [Eff.notify "Rotating..." none false true
        (some ("Rotation failed: " ++ forbidden403Text))] := by
  refine ⟨by decide, rfl, by decide⟩

/-- C4 amended: a bad/missing bearer token on `POST /rotate` leads to an
    immediate reject with no retry, no history entry and no driver call —
    but only after the rotation lock has been acquired and `in_progress`
    set; the `abort(403)` is caught by the handler's generic
    `except Exception`, a failure notification is sent (reporting the
    `"Rotating..."` sentinel as the current IP), the lock is released and
    `in_progress` cleared, and the response is the generic 500 failure
    payload rather than a bare 403. -/
theorem claim_C4_auth_reject (cfg : Config) (header : String) (inProg0 : Bool)
    (env : RotateEnv) (hbad : tokenAuthorized cfg.token header = false) :
    (rotate cfg header true inProg0 env).resp =
      Resp.excFailed ("Rotation failed: " ++ forbidden403Text) ∧
    (rotate cfg header true inProg0 env).effs =
      [Eff.notify (get_current_ip true env.stExc) none false true
        (some ("Rotation failed: " ++ forbidden403Text))] ∧
    (∀ ip f fl, Eff.hist ip f fl ∉ (rotate cfg header true inProg0 env).effs) ∧
    Eff.teardownQmi ∉ (rotate cfg header true inProg0 env).effs ∧
    Eff.startQmi ∉ (rotate cfg header true inProg0 env).effs ∧
    Eff.teardownRndis ∉ (rotate cfg header true inProg0 env).effs ∧
    Eff.startRndis ∉ (rotate cfg header true inProg0 env).effs ∧
    Eff.teardownPpp ∉ (rotate cfg header true inProg0 env).effs ∧
    Eff.startPpp ∉ (rotate cfg header true inProg0 env).effs ∧
    (rotate cfg header true inProg0 env).acquired = true ∧
    (rotate cfg header true inProg0 env).releases = 1 ∧
    (rotate cfg header true inProg0 env).lockFreeAfter = true ∧
    (rotate cfg header true inProg0 env).inProgressAfter = false := by
  simp [rotate, rotateBody, hbad]

/-- C4 amended, instantiated: the concrete bad-token request of the
    counterexample satisfies the amended statement. -/
theorem claim_C4_auth_reject_witness :
    (rotate cfgEx "" true false envPriv).resp =
      Resp.excFailed ("Rotation failed: " ++ forbidden403Text) ∧
    (rotate cfgEx "" true false envPriv).effs =
      [Eff.notify (get_current_ip true envPriv.stExc) none false true
        (some ("Rotation failed: " ++ forbidden403Text))] ∧
    (∀ ip f fl, Eff.hist ip f fl ∉ (rotate cfgEx "" true false envPriv).effs) ∧
    Eff.teardownQmi ∉ (rotate cfgEx "" true false envPriv).effs ∧
    Eff.startQmi ∉ (rotate cfgEx "" true false envPriv).effs ∧
    Eff.teardownRndis ∉ (rotate cfgEx "" true false envPriv).effs ∧
    Eff.startRndis ∉ (rotate cfgEx "" true false envPriv).effs ∧
    Eff.teardownPpp ∉ (rotate cfgEx "" true false envPriv).effs ∧
    Eff.startPpp ∉ (rotate cfgEx "" true false envPriv).effs ∧
    (rotate cfgEx "" true false envPriv).acquired = true ∧
    (rotate cfgEx "" true false envPriv).releases = 1 ∧
    (rotate cfgEx "" true false envPriv).lockFreeAfter = true ∧
    (rotate cfgEx "" true false envPriv).inProgressAfter = false :=
  claim_C4_auth_reject cfgEx "" false envPriv (by decide)

/-- If every attempt brings the interface up but observes the same IP as the
    baseline, the manual QMI loop ends in the exhausted 400 failure. -/
theorem qmiLoopM_unchanged (cfg : Config) (env : RotateEnv) (cur prev : String)
    (hco : ∀ i < cfg.maxAttempts, (env.att i).startExc = false ∧ (env.att i).waitUp = true ∧
      get_current_ip true (env.att i).probeAfter = prev) :
    ∀ k j, j + (k + 1) = cfg.maxAttempts →
      isExhaustedFailure (qmiLoopM cfg env cur prev (List.range' j (k + 1))).1
        cfg.maxAttempts = true := by
  intro k
  induction k with
  | zero =>
    intro j hj
    obtain ⟨h1, h2, h3⟩ := hco j (by omega)
    have hnotlt : ¬ j < cfg.maxAttempts - 1 := by omega
    simp [List.range', qmiLoopM, h1, h2, h3, hnotlt, isExhaustedFailure]
  | succ k ih =>
    intro j hj
    obtain ⟨h1, h2, h3⟩ := hco j (by omega)
    have hlt : j < cfg.maxAttempts - 1 := by omega
    have ih2 := ih (j + 1) (by omega)
    simpa [List.range', qmiLoopM, h1, h2, h3, hlt] using ih2

/-- Same-IP exhaustion for the manual RNDIS loop. -/
theorem rndisLoopM_unchanged (cfg : Config) (env : RotateEnv) (cur prev : String)
    (hco : ∀ i < cfg.maxAttempts, (env.att i).startExc = false ∧ (env.att i).waitUp = true ∧
      get_current_ip true (env.att i).probeAfter = prev) :
    ∀ k j, j + (k + 1) = cfg.maxAttempts →
      isExhaustedFailure (rndisLoopM cfg env cur prev (List.range' j (k + 1))).1
        cfg.maxAttempts = true := by
  intro k
  induction k with
  | zero =>
    intro j hj
    obtain ⟨h1, h2, h3⟩ := hco j (by omega)
    have hnotlt : ¬ j < cfg.maxAttempts - 1 := by omega
    simp [List.range', rndisLoopM, h1, h2, h3, hnotlt, isExhaustedFailure]
  | succ k ih =>
    intro j hj
    obtain ⟨h1, h2, h3⟩ := hco j (by omega)
    have hlt : j < cfg.maxAttempts - 1 := by omega
    have ih2 := ih (j + 1) (by omega)
    simpa [List.range', rndisLoopM, h1, h2, h3, hlt] using ih2

/-- Same-IP exhaustion for the manual PPP loop. -/
theorem pppLoopM_unchanged (cfg : Config) (env : RotateEnv) (cur prev : String)
    (hco : ∀ i < cfg.maxAttempts, (env.att i).startExc = false ∧ (env.att i).waitUp = true ∧
      get_current_ip true (env.att i).probeAfter = prev) :
    ∀ k j, j + (k + 1) = cfg.maxAttempts →
      isExhaustedFailure (pppLoopM cfg env cur prev (List.range' j (k + 1))).1
        cfg.maxAttempts = true := by
  intro k
  induction k with
  | zero =>
    intro j hj
    obtain ⟨h1, h2, h3⟩ := hco j (by omega)
    have hnotlt : ¬ j < cfg.maxAttempts - 1 := by omega
    simp [List.range', pppLoopM, h1, h2, h3, hnotlt, isExhaustedFailure]
  | succ k ih =>
    intro j hj
    obtain ⟨h1, h2, h3⟩ := hco j (by omega)
    have hlt : j < cfg.maxAttempts - 1 := by omega
    have ih2 := ih (j + 1) (by omega)
    simpa [List.range', pppLoopM, h1, h2, h3, hlt] using ih2

/-- An exhausted 400 failure is never a success payload. -/
theorem exhausted_not_success (r : Resp) (n : Nat)
    (h : isExhaustedFailure r n = true) : isSuccessResp r = false := by
  cases r <;> simp_all [isExhaustedFailure, isSuccessResp]

/-- C5: for every authorized rotation in which driver bring-up and the
    readiness wait succeed on every attempt but the observed IP equals the
    recorded baseline `previous_ip` on every attempt, the handler reports
    the exhausted failure (HTTP 400, `attempts = max_attempts`) and never a
    success, on whichever transport path (QMI, RNDIS or PPP fallback) the
    mode selection picks. -/
theorem claim_C5_same_ip_failure (cfg : Config) (header : String) (inProg0 : Bool)
    (env : RotateEnv)
    (hauth : tokenAuthorized cfg.token header = true)
    (hmax : 1 ≤ cfg.maxAttempts)
    (hdrv : ∀ i < cfg.maxAttempts, (env.att i).startExc = false ∧ (env.att i).waitUp = true)
    (hsame : ∀ i < cfg.maxAttempts,
      get_current_ip true (env.att i).probeAfter = get_current_ip true env.st0) :
    isExhaustedFailure (rotate cfg header true inProg0 env).resp cfg.maxAttempts = true ∧
    isSuccessResp (rotate cfg header true inProg0 env).resp = false := by
  have hco : ∀ i < cfg.maxAttempts,
      (env.att i).startExc = false ∧ (env.att i).waitUp = true ∧
      get_current_ip true (env.att i).probeAfter = get_current_ip true env.st0 :=
    fun i hi => ⟨(hdrv i hi).1, (hdrv i hi).2, hsame i hi⟩
  have hrange : List.range cfg.maxAttempts = List.range' 0 ((cfg.maxAttempts - 1) + 1) := by
    rw [List.range_eq_range']
    congr 1
    omega
  have hfail : isExhaustedFailure (rotateBody cfg header env).1 cfg.maxAttempts = true := by
    unfold rotateBody
    simp only [hauth, not_true_eq_false, if_false]
    rw [hrange]
    split
    · exact qmiLoopM_unchanged cfg env _ _ hco (cfg.maxAttempts - 1) 0 (by omega)
    · split
      · exact rndisLoopM_unchanged cfg env _ _ hco (cfg.maxAttempts - 1) 0 (by omega)
      · exact pppLoopM_unchanged cfg env _ _ hco (cfg.maxAttempts - 1) 0 (by omega)
  have hresp : (rotate cfg header true inProg0 env).resp = (rotateBody cfg header env).1 := rfl
  rw [hresp]
  exact ⟨hfail, exhausted_not_success _ _ hfail⟩

/-- C5 instantiated: the concrete one-attempt QMI rotation whose world never
    changes ends in the exhausted 400 failure and is not reported as
    success. -/
theorem claim_C5_same_ip_failure_witness :
    isExhaustedFailure (rotate cfgEx "Bearer secret" true false envSame).resp
      cfgEx.maxAttempts = true ∧
    isSuccessResp (rotate cfgEx "Bearer secret" true false envSame).resp = false :=
  claim_C5_same_ip_failure cfgEx "Bearer secret" false envSame (by decide) (by decide)
    (by decide) (by decide)

/-- Invariant maintained by `update_ip_history` from the initial document:
    the list is capped at 10 entries and `first_seen` is unset exactly while
    the list is empty. -/
def HistInv (h : IpHistory) : Prop :=
  h.ips.length ≤ 10 ∧ (h.first_seen = none ↔ h.ips = [])

/-- One `update_ip_history` call preserves the invariant. -/
theorem histInv_update (h : IpHistory) (hi : HistInv h) (now : Nat) (ip : String)
    (f fl : Bool) : HistInv (update_ip_history h now ip f fl) := by
  obtain ⟨hlen, hfs⟩ := hi
  unfold update_ip_history
  cases hsa : shouldAdd h ip f with
  | false => simpa [hsa] using ⟨hlen, hfs⟩
  | true =>
    simp only [hsa, if_true]
    constructor
    · by_cases hgt : (h.ips ++ [IpEntry.mk ip fl]).length > 10
      · simp only [hgt, if_true, keepLast, List.length_drop]
        omega
      · simp only [hgt, if_false]
        simp only [List.length_append, List.length_singleton] at hgt ⊢
        omega
    · constructor
      · intro hnone
        by_cases hn : h.first_seen.isNone
        · simp [hn] at hnone
        · simp only [hn, if_false] at hnone
          have : h.ips = [] := hfs.mp (by simpa using hnone)
          exact absurd (hfs.mpr this) (by simpa using hn)
      · intro hnil
        exfalso
        by_cases hgt : (h.ips ++ [IpEntry.mk ip fl]).length > 10
        · simp only [hgt, if_true, keepLast] at hnil
          have := congrArg List.length hnil
          simp only [List.length_drop, List.length_nil] at this
          simp only [List.length_append, List.length_singleton] at hgt this
          omega
        · simp only [hgt, if_false] at hnil
          simp at hnil

/-- Every document reachable from the initial one satisfies the
    invariant. -/
theorem histInv_run (ops : List (Nat × String × Bool × Bool)) : HistInv (runHist ops) := by
  have step : ∀ (l : List (Nat × String × Bool × Bool)) (h : IpHistory), HistInv h →
      HistInv (l.foldl (fun h op => update_ip_history h op.1 op.2.1 op.2.2.1 op.2.2.2) h) := by
    intro l
    induction l with
    | nil => intro h hh; exact hh
    | cons a t ih =>
      intro h hh
      exact ih _ (histInv_update h hh a.1 a.2.1 a.2.2.1 a.2.2.2)
  exact step ops initHistory ⟨by simp [initHistory], by simp [initHistory]⟩

/-- Shape of the entry list after one update: append-then-evict-oldest when
    the append condition holds, unchanged otherwise. -/
theorem update_ips_eq (h : IpHistory) (now : Nat) (ip : String) (f fl : Bool)
    (hlen : h.ips.length ≤ 10) :
    (update_ip_history h now ip f fl).ips =
      (if shouldAdd h ip f then keepLast 10 (h.ips ++ [IpEntry.mk ip fl])
       else h.ips) := by
  unfold update_ip_history
  cases hsa : shouldAdd h ip f with
  | false => simp [hsa]
  | true =>
    simp only [hsa, if_true]
    by_cases hgt : (h.ips ++ [IpEntry.mk ip fl]).length > 10
    · exact if_pos hgt
    · simp only [hgt, if_false, keepLast]
      have h0 : (h.ips ++ [IpEntry.mk ip fl]).length - 10 = 0 := by
        simp only [List.length_append, List.length_singleton] at hgt ⊢
        omega
      rw [h0, List.drop_zero]

/-- Shape of the rotation counter after one update: increments by one
    exactly when an entry is appended to an already-nonempty list (never on
    the very first recorded IP). -/
theorem update_rot_eq (h : IpHistory) (now : Nat) (ip : String) (f fl : Bool)
    (hfs : h.first_seen = none ↔ h.ips = []) :
    (update_ip_history h now ip f fl).rotations =
      h.rotations + (if shouldAdd h ip f && !h.ips.isEmpty then 1 else 0) := by
  unfold update_ip_history
  cases hsa : shouldAdd h ip f with
  | false => simp [hsa]
  | true =>
    simp only [hsa, if_true, Bool.true_and]
    cases hips : h.ips with
    | nil =>
      have : h.first_seen = none := hfs.mpr hips
      simp [this, hips]
    | cons a t =>
      have hne : h.first_seen ≠ none := fun hn => by simp [hfs.mp hn] at hips
      have hnone : h.first_seen.isNone = false := by
        cases hh : h.first_seen with
        | none => exact absurd hh hne
        | some _ => rfl
      have hgt : (h.ips ++ [IpEntry.mk ip fl]).length > 1 := by
        simp [hips]
      simp [hnone, hgt, hips]

/-- The append condition holds exactly when the add is forced or the IP
    differs from the last recorded one (vacuously so on an empty log). -/
theorem shouldAdd_iff (h : IpHistory) (ip : String) (f : Bool) :
    shouldAdd h ip f = true ↔
      (f = true ∨ ∀ e, h.ips.getLast? = some e → e.ip ≠ ip) := by
  unfold shouldAdd
  cases hl : h.ips.getLast? with
  | none =>
    have hnil : h.ips = [] := by simpa using hl
    simp [hnil]
  | some e =>
    have hne : h.ips ≠ [] := fun hnil => by simp [hnil] at hl
    simp only [hl, List.isEmpty_iff, Bool.or_eq_true, decide_eq_true_eq]
    constructor
    · rintro ((hf | hnil) | hne2)
      · exact Or.inl hf
      · exact absurd hnil hne
      · exact Or.inr fun e2 he2 => by cases he2; exact hne2
    · rintro (hf | hall)
      · exact Or.inl (Or.inl hf)
      · exact Or.inr (hall e rfl)

/-- C7: starting from the empty history document, after any sequence of
    `update_ip_history` calls the log holds at most 10 entries; one further
    call appends exactly when the add is forced or the IP differs from the
    last recorded IP, in which case the list becomes the append with the
    oldest entries evicted beyond the cap (FIFO, survivor order preserved);
    the cap still holds afterwards; and the rotation counter increments
    exactly on appends to an already-nonempty log — in particular not on the
    very first recorded IP. -/
theorem claim_C7_history (ops : List (Nat × String × Bool × Bool)) (now : Nat)
    (ip : String) (f fl : Bool) :
    (runHist ops).ips.length ≤ 10 ∧
    (update_ip_history (runHist ops) now ip f fl).ips.length ≤ 10 ∧
    (update_ip_history (runHist ops) now ip f fl).ips =
      (if shouldAdd (runHist ops) ip f then
        keepLast 10 ((runHist ops).ips ++ [IpEntry.mk ip fl])
       else (runHist ops).ips) ∧
    (shouldAdd (runHist ops) ip f = true ↔
      (f = true ∨ ∀ e, (runHist ops).ips.getLast? = some e → e.ip ≠ ip)) ∧
    (update_ip_history (runHist ops) now ip f fl).rotations =
      (runHist ops).rotations +
        (if shouldAdd (runHist ops) ip f && !(runHist ops).ips.isEmpty then 1 else 0) := by
  obtain ⟨hlen, hfs⟩ := histInv_run ops
  exact ⟨hlen, (histInv_update (runHist ops) ⟨hlen, hfs⟩ now ip f fl).1,
    update_ips_eq _ now ip f fl hlen, shouldAdd_iff _ ip f,
    update_rot_eq _ now ip f fl hfs⟩

/-- Mapping a function that fixes every element of a list is the
    identity. -/
theorem map_fix {α : Type} (t : List α) (f : α → α) (hf : ∀ r ∈ t, f r = r) :
    t.map f = t := by
  induction t with
  | nil => rfl
  | cons a s ih =>
    simp only [List.map_cons, hf a (by simp)]
    rw [ih fun r hr => hf r (by simp [hr])]

/-- The manual QMI attempt loop issues no route-table commands. -/
theorem qmiLoopM_no_guard (cfg : Config) (env : RotateEnv) (cur prev : String) :
    ∀ (l : List Nat) (cmds : List RouteCmd),
      Eff.routeGuard cmds ∉ (qmiLoopM cfg env cur prev l).2 := by
  intro l
  induction l with
  | nil => intro cmds h; simp [qmiLoopM] at h
  | cons i rest ih =>
    intro cmds h
    simp only [qmiLoopM] at h
    split_ifs at h <;> simp at h <;> exact ih _ h

/-- The manual RNDIS attempt loop issues no route-table commands. -/
theorem rndisLoopM_no_guard (cfg : Config) (env : RotateEnv) (cur prev : String) :
    ∀ (l : List Nat) (cmds : List RouteCmd),
      Eff.routeGuard cmds ∉ (rndisLoopM cfg env cur prev l).2 := by
  intro l
  induction l with
  | nil => intro cmds h; simp [rndisLoopM] at h
  | cons i rest ih =>
    intro cmds h
    simp only [rndisLoopM] at h
    split_ifs at h <;> simp at h <;> exact ih _ h

/-- Every route-table command batch issued by the manual PPP loop is the
    routing guard applied to the observed primary route. -/
theorem pppLoopM_guard_args (cfg : Config) (env : RotateEnv) (cur prev : String) :
    ∀ (l : List Nat) (cmds : List RouteCmd),
      Eff.routeGuard cmds ∈ (pppLoopM cfg env cur prev l).2 →
      cmds = ensure_ppp_default_route env.routeShow := by
  intro l
  induction l with
  | nil => intro cmds h; simp [pppLoopM] at h
  | cons i rest ih =>
    intro cmds h
    simp only [pppLoopM] at h
    split_ifs at h <;> simp at h <;>
      first
        | exact h
        | exact h.symm
        | exact ih _ h
        | (rcases h with h | h
           · exact h
           · exact ih _ h)

/-- Every route-table command batch in a manual rotation comes from the
    routing guard, fed with the primary route it observed. -/
theorem rotate_guard_args (cfg : Config) (header : String) (lockFree inProg0 : Bool)
    (env : RotateEnv) (cmds : List RouteCmd)
    (h : Eff.routeGuard cmds ∈ (rotate cfg header lockFree inProg0 env).effs) :
    cmds = ensure_ppp_default_route env.routeShow := by
  unfold rotate at h
  by_cases hl : lockFree
  · simp only [hl, not_true_eq_false, if_false] at h
    unfold rotateBody at h
    by_cases hauth : tokenAuthorized cfg.token header
    · simp only [hauth, not_true_eq_false, if_false] at h
      split at h
      · exact absurd h (qmiLoopM_no_guard cfg env _ _ _ cmds)
      · split at h
        · exact absurd h (rndisLoopM_no_guard cfg env _ _ _ cmds)
        · exact pppLoopM_guard_args cfg env _ _ _ cmds h
    · simp only [eq_false hauth, not_false_eq_true, if_true] at h
      simp at h
  · simp only [hl, not_false_eq_true, if_true] at h
    simp at h

/-- C8: the routing guard, shown a primary default route `via g dev d
    metric m` with `d` neither empty nor `ppp0`, issues exactly a `replace`
    re-asserting that route unchanged and an `add` of the `ppp0` default
    route at metric `m + 500`.  On a route table that contains the LAN route
    as its unique metric-`m` entry, has it as the lowest-metric default
    route, and has no entry at metric `m + 500`, the resulting table still
    contains the LAN route with its original gateway and metric, gains the
    `ppp0` route at the strictly higher metric `m + 500`, and the LAN route
    keeps the lowest metric among all default routes.  Moreover, for every
    rotation, success or failure, the only main-table default-route command
    batches in its effect trace are those of the guard applied to the route
    it observed — so the pre-existing LAN default route survives every
    rotation on every path. -/
theorem claim_C8_routing_guard (t : List DefRoute) (line : String) (rest : List String)
    (g d : String) (m : Int)
    (hparse : parse_default_route line = { gw := some g, dev := some d, metric := m })
    (hdev : d ≠ "ppp0") (hdev2 : d ≠ "")
    (hmem : ({ gw := some g, dev := d, metric := m } : DefRoute) ∈ t)
    (hlow : ∀ r ∈ t, m ≤ r.metric)
    (huniq : ∀ r ∈ t, r.metric = m → r = { gw := some g, dev := d, metric := m })
    (hfree : ∀ r ∈ t, r.metric ≠ m + 500) :
    ensure_ppp_default_route (some (line :: rest)) =
      [RouteCmd.replaceDefault g d m, RouteCmd.addDefault "ppp0" (m + 500)] ∧
    applyCmds t (ensure_ppp_default_route (some (line :: rest))) =
      t ++ [{ gw := none, dev := "ppp0", metric := m + 500 }] ∧
    ({ gw := some g, dev := d, metric := m } : DefRoute) ∈
      applyCmds t (ensure_ppp_default_route (some (line :: rest))) ∧
    ({ gw := none, dev := "ppp0", metric := m + 500 } : DefRoute) ∈
      applyCmds t (ensure_ppp_default_route (some (line :: rest))) ∧
    m < m + 500 ∧
    (∀ r ∈ applyCmds t (ensure_ppp_default_route (some (line :: rest))),
      m ≤ r.metric) ∧
    (∀ (cfg : Config) (header : String) (lockFree inProg0 : Bool) (renv : RotateEnv)
      (cmds : List RouteCmd),
      Eff.routeGuard cmds ∈ (rotate cfg header lockFree inProg0 renv).effs →
      cmds = ensure_ppp_default_route renv.routeShow) := by
  have hcmds : ensure_ppp_default_route (some (line :: rest)) =
      [RouteCmd.replaceDefault g d m, RouteCmd.addDefault "ppp0" (m + 500)] := by
    unfold ensure_ppp_default_route
    simp [hparse, hdev, hdev2]
  have hany1 : (t.any fun r => r.metric = m) = true := by
    simp only [List.any_eq_true, decide_eq_true_eq]
    exact ⟨_, hmem, rfl⟩
  have hany2 : ¬ ((t.any fun r => r.metric = m + 500) = true) := by
    simp only [List.any_eq_true, decide_eq_true_eq]
    rintro ⟨r, hr, hrm⟩
    exact hfree r hr hrm
  have h1 : applyCmd t (RouteCmd.replaceDefault g d m) = t := by
    simp only [applyCmd]
    rw [if_pos hany1]
    exact map_fix t _ fun r hr => by
      by_cases hrm : r.metric = m
      · rw [if_pos hrm, huniq r hr hrm]
      · rw [if_neg hrm]
  have h2 : applyCmd t (RouteCmd.addDefault "ppp0" (m + 500)) =
      t ++ [{ gw := none, dev := "ppp0", metric := m + 500 }] := by
    simp only [applyCmd]
    rw [if_neg hany2]
  have happly : applyCmds t (ensure_ppp_default_route (some (line :: rest))) =
      t ++ [{ gw := none, dev := "ppp0", metric := m + 500 }] := by
    rw [hcmds]
    show applyCmd (applyCmd t (RouteCmd.replaceDefault g d m))
        (RouteCmd.addDefault "ppp0" (m + 500)) =
      t ++ [{ gw := none, dev := "ppp0", metric := m + 500 }]
    rw [h1, h2]
  refine ⟨hcmds, happly, ?_, ?_, by omega, ?_,
    fun cfg header lockFree inProg0 renv cmds h =>
      rotate_guard_args cfg header lockFree inProg0 renv cmds h⟩
  · rw [happly]
    exact List.mem_append_left _ hmem
  · rw [happly]
    exact List.mem_append_right _ (by simp)
  · rw [happly]
    intro r hr
    rcases List.mem_append.mp hr with hL | hR
    · exact hlow r hL
    · simp at hR
      rw [hR]
      exact (by omega : m ≤ m + 500)

/-- Concrete routing-guard table used by the C8 witness. -/
def lanTable : List DefRoute :=
  [{ gw := some "192.168.1.1", dev := "eth0", metric := 100 }]

/-- Concrete `ip route show default` first line used by the C8 witness. -/
def lanLine : String :=
  "default via 192.168.1.1 dev eth0 proto dhcp src 192.168.1.23 metric 100"

/-- C8 instantiated: on a table holding only the `eth0` LAN default route at
    metric 100, the guard preserves it and adds `ppp0` at metric 600. -/
theorem claim_C8_routing_guard_witness :
    ensure_ppp_default_route (some (lanLine :: [])) =
      [RouteCmd.replaceDefault "192.168.1.1" "eth0" 100,
       RouteCmd.addDefault "ppp0" (100 + 500)] ∧
    applyCmds lanTable (ensure_ppp_default_route (some (lanLine :: []))) =
      lanTable ++ [{ gw := none, dev := "ppp0", metric := 100 + 500 }] ∧
    ({ gw := some "192.168.1.1", dev := "eth0", metric := 100 } : DefRoute) ∈
      applyCmds lanTable (ensure_ppp_default_route (some (lanLine :: []))) ∧
    ({ gw := none, dev := "ppp0", metric := 100 + 500 } : DefRoute) ∈
      applyCmds lanTable (ensure_ppp_default_route (some (lanLine :: []))) ∧
    (100 : Int) < 100 + 500 ∧
    (∀ r ∈ applyCmds lanTable (ensure_ppp_default_route (some (lanLine :: []))),
      (100 : Int) ≤ r.metric) ∧
    (∀ (cfg : Config) (header : String) (lockFree inProg0 : Bool) (renv : RotateEnv)
      (cmds : List RouteCmd),
      Eff.routeGuard cmds ∈ (rotate cfg header lockFree inProg0 renv).effs →
      cmds = ensure_ppp_default_route renv.routeShow) :=
  claim_C8_routing_guard lanTable lanLine [] "192.168.1.1" "eth0" 100
    (by decide) (by decide) (by decide) (by decide) (by decide) (by decide) (by decide)

/-- The RNDIS interface-name convention as the spec words it
    (`enx*`/`eth1`/`usb0`); stated from the spec for comparison with the
    source's `rndisMatch`, which tests only `enx`/`eth1`. -/
def specRndisName (l : String) : Bool :=
  strStarts "enx" l || strStarts "eth1" l || strStarts "usb0" l

/-- A link environment whose only cellular interface is `usb0`, which holds
    an IPv4 address. -/
def envUsb : LinkEnv :=
  { linkShow := some (0, ["usb0             UP             aa:bb:cc:dd:ee:02"]),
    addrShow := fun i =>
      if i = "usb0" then some (0, "4: usb0    inet 192.168.225.37/24 scope global usb0")
      else none }

/-- C9 counterexample: a `usb0` interface matches the claimed RNDIS
    name convention and has an assigned IPv4 address, yet
    `detect_rndis_interface` returns `(None, False)` — the source filter
    matches only `enx*`/`eth1`, never `usb0`, refuting the claimed
    `(name, True)` outcome for this system state. -/
theorem claim_C9_counterexample :
    specRndisName (strTrim "usb0             UP             aa:bb:cc:dd:ee:02") = true ∧
    substrOf "inet " "4: usb0    inet 192.168.225.37/24 scope global usb0" = true ∧
    detect_rndis_interface envUsb = (none, false) := by
  refine ⟨by decide, by decide, by decide⟩

/-- A scan over lines none of which pass the name filter yields the
    no-interface result. -/
theorem scanIfaces_nomatch (keep : String → Bool)
    (addrShow : String → Option (Int × String)) :
    ∀ lines : List String, (∀ l ∈ lines, keep (strTrim l) = false) →
      scanIfaces keep addrShow lines = some (none, false) := by
  intro lines
  induction lines with
  | nil => intro _; rfl
  | cons a t ih =>
    intro hall
    have ha : keep (strTrim a) = false := hall a (by simp)
    simp only [scanIfaces, ha]
    exact ih fun l hl => hall l (by simp [hl])

/-- The scan stops at the first line passing the name filter and reports
    that interface according to its address query. -/
theorem scanIfaces_first (keep : String → Bool)
    (addrShow : String → Option (Int × String)) (l iface : String)
    (args : List String) (hl : keep (strTrim l) = true)
    (hsplit : splitWs (strTrim l) = iface :: args) :
    ∀ pre post : List String, (∀ l2 ∈ pre, keep (strTrim l2) = false) →
      scanIfaces keep addrShow (pre ++ l :: post) =
        (match addrShow iface with
         | none => none
         | some (rc, out) =>
           if rc ≠ 0 then some (some iface, false)
           else if substrOf "inet " out then some (some iface, true)
           else some (some iface, false)) := by
  intro pre
  induction pre with
  | nil =>
    intro post _
    simp only [List.nil_append, scanIfaces, hl, hsplit, if_true]
  | cons a t ih =>
    intro post hall
    have ha : keep (strTrim a) = false := hall a (by simp)
    simp only [List.cons_append, scanIfaces, ha]
    exact ih post fun l2 hl2 => hall l2 (by simp [hl2])

/-- C9 amended: the probes use the name conventions `wwan*` (QMI) and
    `enx*`/`eth1` — not `usb0` — for RNDIS; for every system state they
    return `(None, False)` when the interface listing raised, exited
    non-zero, or contains no matching line, and on the first matching line
    they return `(name, False)` when the per-interface address query exits
    non-zero or shows no IPv4, `(name, True)` when it shows one, and
    `(None, False)` when that query itself raises; no input makes them
    propagate an exception (the embedding is a total function whose
    exception inputs are mapped to `(None, False)`). -/
theorem claim_C9_probe (keep : String → Bool) (env : LinkEnv) :
    detect_qmi_interface env = detectWith qmiMatch env ∧
    detect_rndis_interface env = detectWith rndisMatch env ∧
    (∀ s, qmiMatch s = strStarts "wwan" s) ∧
    (∀ s, rndisMatch s = (strStarts "enx" s || strStarts "eth1" s)) ∧
    (env.linkShow = none → detectWith keep env = (none, false)) ∧
    (∀ rc lines, env.linkShow = some (rc, lines) → rc ≠ 0 →
      detectWith keep env = (none, false)) ∧
    (∀ lines, env.linkShow = some (0, lines) →
      (∀ l ∈ lines, keep (strTrim l) = false) →
      detectWith keep env = (none, false)) ∧
    (∀ lines pre l post iface args, env.linkShow = some (0, lines) →
      lines = pre ++ l :: post →
      (∀ l2 ∈ pre, keep (strTrim l2) = false) →
      keep (strTrim l) = true →
      splitWs (strTrim l) = iface :: args →
      (env.addrShow iface = none → detectWith keep env = (none, false)) ∧
      (∀ rc2 out, env.addrShow iface = some (rc2, out) →
        detectWith keep env =
          (some iface, if rc2 ≠ 0 then false else substrOf "inet " out))) := by
  refine ⟨rfl, rfl, fun _ => rfl, fun _ => rfl, ?_, ?_, ?_, ?_⟩
  · intro hnone
    simp [detectWith, hnone]
  · intro rc lines hshow hrc
    simp [detectWith, hshow, hrc]
  · intro lines hshow hall
    simp [detectWith, hshow, scanIfaces_nomatch keep env.addrShow lines hall]
  · intro lines pre l post iface args hshow hsplitlines hpre hl hsplit
    have hscan := scanIfaces_first keep env.addrShow l iface args hl hsplit pre post hpre
    constructor
    · intro haddr
      rw [haddr] at hscan
      simp [detectWith, hshow, hsplitlines, hscan]
    · intro rc2 out haddr
      rw [haddr] at hscan
      have hscan2 : scanIfaces keep env.addrShow (pre ++ l :: post) =
          (if rc2 ≠ 0 then some (some iface, false)
           else if substrOf "inet " out then some (some iface, true)
           else some (some iface, false)) := by rw [hscan]
      by_cases hrc2 : rc2 ≠ 0
      · rw [if_pos hrc2] at hscan2
        rw [if_pos hrc2]
        simp [detectWith, hshow, hsplitlines, hscan2]
      · rw [if_neg hrc2] at hscan2
        rw [if_neg hrc2]
        cases hinet : substrOf "inet " out
        · rw [if_neg (by simp [hinet])] at hscan2
          simp [detectWith, hshow, hsplitlines, hscan2]
        · rw [if_pos (by simp [hinet])] at hscan2
          simp [detectWith, hshow, hsplitlines, hscan2]

/-- A link environment listing a loopback line first and then an `enx`
    interface that holds an IPv4 address, used by the C9 witness. -/
def envEnx : LinkEnv :=
  { linkShow := some (0, ["lo               UNKNOWN        00:00:00:00:00:00",
                          "enxa1b2c3        UP             aa:bb:cc:dd:ee:03"]),
    addrShow := fun i =>
      if i = "enxa1b2c3" then some (0, "3: enxa1b2c3    inet 10.0.0.2/8 scope global enxa1b2c3")
      else none }

/-- C9 amended, instantiated: on the concrete listing the probe returns the
    first matching interface with its address flag. -/
theorem claim_C9_probe_witness :
    detect_rndis_interface envEnx = (some "enxa1b2c3", true) := by
  obtain ⟨-, h2, -, -, -, -, -, h8⟩ := claim_C9_probe rndisMatch envEnx
  have h9 := h8 ["lo               UNKNOWN        00:00:00:00:00:00",
                 "enxa1b2c3        UP             aa:bb:cc:dd:ee:03"]
    ["lo               UNKNOWN        00:00:00:00:00:00"]
    "enxa1b2c3        UP             aa:bb:cc:dd:ee:03" []
    "enxa1b2c3" ["UP", "aa:bb:cc:dd:ee:03"] rfl rfl (by decide) (by decide) (by decide)
  have h10 := h9.2 0 "3: enxa1b2c3    inet 10.0.0.2/8 scope global enxa1b2c3" (by decide)
  rw [h2, h10]
  decide
